import Mathlib

/-!
Verification of the quiz attempt lifecycle and scoring engine of the
Flask course-enrollment application.

The Python sources embedded here are, the model layer, app/models/quiz.py
(classes Quiz, Question, QuizAttempt), app/models/course.py (Course),
app/models/user.py (User), app/models/enrollment.py (Enrollment), and the
route app/main/routes.py take_quiz.

Modelling conventions:
- SQLAlchemy rows become Lean structures; a lazy relationship such as
  quiz.questions or quiz.attempts becomes an explicit list argument
  (the rows of the related table, filtered by the foreign key).
- Python numbers: integer columns become Int (Nat for ids and counts);
  Python true division, used once for the percentage, is modelled over
  the rationals.
- A fallible Python expression becomes an Except PyErr value.  Python
  attribute lookup on a row is total only on the columns the model
  declares; looking up any other name raises AttributeError, which we
  model through explicit lookup functions over the declared column names.
- json.loads of the stored answers text is modelled by an executable
  parser for flat JSON objects whose keys and values are plain strings,
  the only shape the application ever stores; any other input is a
  JSONDecodeError.  String escape sequences are not modelled and parse
  as a decode error.
-/

namespace CourseApp

/-- Exceptions that the modelled Python code can raise. -/
inductive PyErr where
  | attributeError (attr : String)
  | jsonDecodeError
  deriving Repr, DecidableEq

/-- Python s.strip(): drop leading and trailing whitespace.  Implemented
structurally over the character list so that it reduces in the kernel. -/
def pyStrip (s : String) : String :=
  String.mk
    (((s.data.dropWhile Char.isWhitespace).reverse.dropWhile Char.isWhitespace).reverse)

/-- Python s.lower(), restricted to the ASCII case mapping. -/
def pyLower (s : String) : String := String.mk (s.data.map Char.toLower)

/-- Python s.strip().lower(): trim surrounding whitespace, then lowercase. -/
def pyNorm (s : String) : String := pyLower (pyStrip s)

/-- Python str(n) for a nonnegative integer id. -/
def pyStr (n : Nat) : String := toString n

/-- Python truthiness of a nullable Text column: None and the empty string
are falsy, every other string is truthy. -/
def pyTruthyText : Option String → Bool
  | none => false
  | some s => !(s == "")

/-! ### JSON (flat string-to-string objects) -/

/-- The opening brace character. -/
def lbraceChar : Char := Char.ofNat 123

/-- The closing brace character. -/
def rbraceChar : Char := Char.ofNat 125

/-- JSON insignificant whitespace. -/
def jsonWs (c : Char) : Bool := c == ' ' || c == '\t' || c == '\n' || c == '\r'

/-- Drop leading JSON whitespace. -/
def skipWs : List Char → List Char
  | [] => []
  | c :: cs => if jsonWs c then skipWs cs else c :: cs

/-- Read the body of a JSON string up to the closing quote.  Escape
sequences are not modelled: a backslash makes the parse fail. -/
def strBody : List Char → List Char → Option (String × List Char)
  | [], _ => none
  | c :: cs, acc =>
    if c == '"' then some (String.mk acc.reverse, cs)
    else if c == '\\' then none
    else strBody cs (c :: acc)

/-- Read a JSON string literal. -/
def readJString : List Char → Option (String × List Char)
  | c :: rest => if c == '"' then strBody rest [] else none
  | [] => none

/-- Read the members of a JSON object after the opening brace, fuelled by
the length of the input. -/
def readMembers : Nat → List Char → List (String × String) →
    Option (List (String × String) × List Char)
  | 0, _, _ => none
  | fuel + 1, cs, acc =>
    match readJString (skipWs cs) with
    | none => none
    | some (k, cs1) =>
      match skipWs cs1 with
      | c :: cs2 =>
        if c == ':' then
          match readJString (skipWs cs2) with
          | none => none
          | some (v, cs3) =>
            match skipWs cs3 with
            | c2 :: cs4 =>
              if c2 == ',' then readMembers fuel cs4 (acc ++ [(k, v)])
              else if c2 == rbraceChar then some (acc ++ [(k, v)], cs4)
              else none
            | [] => none
        else none
      | [] => none

/-- Python json.loads restricted to flat JSON objects with string keys and
string values, the only shape this application stores for answer maps.
Anything else raises json.JSONDecodeError. -/
def json_loads (s : String) : Except PyErr (List (String × String)) :=
  match skipWs s.data with
  | c :: cs =>
    if c == lbraceChar then
      match skipWs cs with
      | c2 :: cs2 =>
        if c2 == rbraceChar then
          if (skipWs cs2).isEmpty then .ok [] else .error .jsonDecodeError
        else
          match readMembers (s.length + 1) (c2 :: cs2) [] with
          | some (d, rest) =>
            if (skipWs rest).isEmpty then .ok d else .error .jsonDecodeError
          | none => .error .jsonDecodeError
      | [] => .error .jsonDecodeError
    else .error .jsonDecodeError
  | [] => .error .jsonDecodeError

/-- Python dict.get on the parsed object: with duplicate keys, json.loads
keeps the last occurrence, so lookup scans from the right. -/
def pyDictGet (d : List (String × String)) (k : String) : Option String :=
  (d.reverse.find? (fun p => p.1 == k)).map (fun p => p.2)

/-! ### Question (app/models/quiz.py, class Question) -/

/-- A row of the questions table.  Columns not used by any modelled method
(question text, explanation, difficulty, timestamps) are omitted. -/
structure Question where
  id : Nat
  quiz_id : Nat
  question_type : String
  options : Option String
  correct_answer : String
  points : Int
  order_index : Int
  deriving Repr, DecidableEq

/-- Question.check_answer: each recognized question type normalizes both
answers with strip().lower() and compares; the short_answer branch is
duplicated in the source; any other type falls through to False. -/
def Question.check_answer (q : Question) (user_answer : String) : Bool :=
  if q.question_type == "multiple_choice" then
    pyNorm user_answer == pyNorm q.correct_answer
  else if q.question_type == "true_false" then
    pyNorm user_answer == pyNorm q.correct_answer
  else if q.question_type == "short_answer" then
    pyNorm user_answer == pyNorm q.correct_answer
  else if q.question_type == "short_answer" then
    pyNorm user_answer == pyNorm q.correct_answer
  else
    false

/-! ### QuizAttempt (app/models/quiz.py, class QuizAttempt) -/

/-- A row of the quiz_attempts table.  The score column is an Integer
column in the schema but receives the result of Python true division, so
it is modelled as a rational. -/
structure QuizAttempt where
  id : Nat
  user_id : Nat
  quiz_id : Nat
  status : String := "in_progress"
  score : Option ℚ := none
  total_points : Option Int := none
  earned_points : Option Int := none
  answers : Option String := none
  started_at : Nat := 0
  completed_at : Option Nat := none
  deriving Repr, DecidableEq

/-- Python attribute lookup for Text-valued attributes on a QuizAttempt
instance.  The model declares exactly one Text column, answers; looking
up any other name raises AttributeError. -/
def QuizAttempt.getTextAttr (a : QuizAttempt) (name : String) :
    Except PyErr (Option String) :=
  if name == "answers" then .ok a.answers
  else .error (.attributeError name)

/-- The try/except around json.loads in get_answers_dict: only
json.JSONDecodeError is caught (yielding the empty dict); any other
exception propagates. -/
def tryJsonDecode (body : Except PyErr (List (String × String))) :
    Except PyErr (List (String × String)) :=
  match body with
  | .error .jsonDecodeError => .ok []
  | other => other

/-- QuizAttempt.get_answers_dict.  The source reads
json.loads(self.answer) — the attribute is named answer there, while the
declared column is answers — inside a try that catches only
json.JSONDecodeError, and returns the empty dict when self.answers is
falsy. -/
def QuizAttempt.get_answers_dict (a : QuizAttempt) :
    Except PyErr (List (String × String)) :=
  if pyTruthyText a.answers then
    tryJsonDecode (a.getTextAttr "answer" >>= fun v => json_loads (v.getD ""))
  else
    .ok []

/-- The scoring loop of QuizAttempt.calculate_score: walk the questions,
accumulating (total_points, earned_points); a question earns its points
when the answer dict has an entry for str(question.id) that check_answer
accepts. -/
def scoreFold (answers_dict : List (String × String)) (questions : List Question) :
    Int × Int :=
  questions.foldl
    (fun acc q =>
      match pyDictGet answers_dict (pyStr q.id) with
      | some ua =>
        if q.check_answer ua then (acc.1 + q.points, acc.2 + q.points)
        else (acc.1 + q.points, acc.2)
      | none => (acc.1 + q.points, acc.2))
    (0, 0)

/-- QuizAttempt.calculate_score.  Returns immediately (mutating nothing)
unless status is completed; otherwise obtains the answer dict, folds over
the quiz's current questions, and stores total_points, earned_points and
score, where score is earned / total * 100 under a total > 0 guard and 0
otherwise.  The questions argument is self.quiz.questions at call time.
The mutation of self is modelled by returning the updated row. -/
def QuizAttempt.calculate_score (questions : List Question) (a : QuizAttempt) :
    Except PyErr QuizAttempt :=
  if a.status ≠ "completed" then .ok a
  else
    match a.get_answers_dict with
    | .error e => .error e
    | .ok d =>
      let p := scoreFold d questions
      .ok { a with
            total_points := some p.1,
            earned_points := some p.2,
            score := some (if 0 < p.1 then (p.2 : ℚ) / (p.1 : ℚ) * 100 else 0) }

/-- The state of an attempt row after a calculate_score call: the updated
row on success, the unchanged row when the call raised (the method raises
before its first assignment to self). -/
def calcStep (questions : List Question) (a : QuizAttempt) : QuizAttempt :=
  match a.calculate_score questions with
  | .ok a2 => a2
  | .error _ => a

/-! ### User, Enrollment, Course -/

/-- A row of the users table (columns used by the modelled code). -/
structure User where
  id : Nat
  role : String := "student"
  is_active : Bool := true
  deriving Repr, DecidableEq

/-- User.is_student. -/
def User.is_student (u : User) : Bool := u.role == "student"

/-- User.is_teacher. -/
def User.is_teacher (u : User) : Bool := u.role == "teacher"

/-- User.is_admin. -/
def User.is_admin (u : User) : Bool := u.role == "admin"

/-- A row of the enrollments table (columns used by the modelled code). -/
structure Enrollment where
  user_id : Nat
  course_id : Nat
  is_active : Bool := true
  deriving Repr, DecidableEq

/-- A row of the courses table (columns used by the modelled code). -/
structure Course where
  id : Nat
  instructor_id : Nat
  is_published : Bool := false
  deriving Repr, DecidableEq

/-- Course.is_enrolled_by_user: an active enrollment row for (user, course)
exists.  The enrollments argument is the enrollments table. -/
def Course.is_enrolled_by_user (c : Course) (enrollments : List Enrollment)
    (user : User) : Bool :=
  (enrollments.filter
    (fun e => e.user_id == user.id && e.course_id == c.id && e.is_active)).head?.isSome

/-- Course.can_be_accessed_by_user: teachers and admins always may; others
must be actively enrolled. -/
def Course.can_be_accessed_by_user (c : Course) (enrollments : List Enrollment)
    (user : User) : Bool :=
  if user.is_teacher || user.is_admin then true
  else c.is_enrolled_by_user enrollments user

/-! ### Quiz (app/models/quiz.py, class Quiz) -/

/-- A row of the quizzes table, with its related questions inlined (the
lazy questions relationship).  The attempts relationship stays an explicit
argument of the methods that use it.  The column name max_attemtps is the
name used in the source. -/
structure Quiz where
  id : Nat
  course_id : Nat
  lesson_id : Nat
  duration_minutes : Int := 30
  max_attemtps : Int := 3
  passing_score : Int := 70
  is_published : Bool := false
  is_randomized : Bool := true
  show_results_immediately : Bool := true
  questions : List Question := []
  deriving Repr, DecidableEq

/-- The rows of the quiz_attempts table that the lazy attempts
relationship of a quiz row yields. -/
def Quiz.attemptRows (q : Quiz) (attempts : List QuizAttempt) : List QuizAttempt :=
  attempts.filter (fun a => a.quiz_id == q.id)

/-- Quiz.get_total_points: sum of points over the related questions. -/
def Quiz.get_total_points (q : Quiz) : Int :=
  (q.questions.map Question.points).sum

/-- Quiz.get_average_score: mean of the non-None scores of the completed
attempts of this quiz, 0 when there are none. -/
def Quiz.get_average_score (q : Quiz) (attempts : List QuizAttempt) : ℚ :=
  let completed_attemtps :=
    (q.attemptRows attempts).filter (fun a => a.status == "completed")
  let scores := completed_attemtps.filterMap QuizAttempt.score
  if scores.isEmpty then 0 else scores.sum / (scores.length : ℚ)

/-- Quiz.can_user_attempt: the count of this user's attempt rows on this
quiz, across all statuses, is below max_attemtps. -/
def Quiz.can_user_attempt (q : Quiz) (attempts : List QuizAttempt) (user : User) :
    Bool :=
  let user_attempts :=
    ((q.attemptRows attempts).filter (fun a => a.user_id == user.id)).length
  decide ((user_attempts : Int) < q.max_attemtps)

/-- Quiz.get_user_best_score: the maximum of the non-None scores of this
user's completed attempts on this quiz, None when there are none. -/
def Quiz.get_user_best_score (q : Quiz) (attempts : List QuizAttempt)
    (user : User) : Option ℚ :=
  let user_attempts :=
    (q.attemptRows attempts).filter
      (fun a => a.user_id == user.id && a.status == "completed")
  let scores := user_attempts.filterMap QuizAttempt.score
  scores.max?

/-- Python attribute lookup for Boolean-valued attributes on a Quiz
instance: the model declares the Boolean columns is_published,
is_randomized and show_results_immediately; looking up any other name
raises AttributeError. -/
def Quiz.getBoolAttr (q : Quiz) (name : String) : Except PyErr Bool :=
  if name == "is_published" then .ok q.is_published
  else if name == "is_randomized" then .ok q.is_randomized
  else if name == "show_results_immediately" then .ok q.show_results_immediately
  else .error (.attributeError name)

/-! ### The take_quiz route (app/main/routes.py) -/

/-- The whole persisted state the take_quiz route touches. -/
structure MainState where
  quizzes : List Quiz
  courses : List Course
  enrollments : List Enrollment
  attempts : List QuizAttempt
  deriving Repr, DecidableEq

/-- Insertion sort by order_index, modelling
quiz.questions.order_by(Question.order_index). -/
def insertByOrderIndex (q : Question) : List Question → List Question
  | [] => [q]
  | p :: ps =>
    if q.order_index < p.order_index then q :: p :: ps
    else p :: insertByOrderIndex q ps

/-- Sort a question list by order_index. -/
def sortByOrderIndex (qs : List Question) : List Question :=
  qs.foldr insertByOrderIndex []

/-- What the take_quiz route sends back. -/
inductive TakeQuizResult where
  | notFound
  | redirectCourseDetail (course_id : Nat)
  | redirectQuizDetail (quiz_id : Nat)
  | pyError (e : PyErr)
  | page (questions : List Question) (attempt : QuizAttempt)
  deriving Repr, DecidableEq

/-- Outcome of the read-only guard section of take_quiz, everything the
route does before it writes. -/
inductive TakeQuizCheck where
  | notFound
  | noCourse
  | noAccess (course_id : Nat)
  | limitReached
  | passed (quiz : Quiz) (course : Course)
  deriving Repr, DecidableEq

/-- The guard section of take_quiz: look up the quiz (get_or_404), its
course, check course.can_be_accessed_by_user, then
quiz.can_user_attempt.  No state is modified. -/
def take_quiz_check (st : MainState) (quiz_id : Nat) (user : User) :
    TakeQuizCheck :=
  match st.quizzes.find? (fun q => q.id == quiz_id) with
  | none => .notFound
  | some quiz =>
    match st.courses.find? (fun c => c.id == quiz.course_id) with
    | none => .noCourse
    | some course =>
      if !(course.can_be_accessed_by_user st.enrollments user) then
        .noAccess course.id
      else if !(quiz.can_user_attempt st.attempts user) then
        .limitReached
      else
        .passed quiz course

/-- The fresh QuizAttempt row that take_quiz constructs: only user_id and
quiz_id are passed; status and the score fields take their column
defaults, started_at its default timestamp. -/
def newAttempt (quiz_id : Nat) (user : User) (newId now : Nat) : QuizAttempt :=
  { id := newId, user_id := user.id, quiz_id := quiz_id, started_at := now }

/-- The write section of take_quiz: db.session.add of the new attempt
followed by db.session.commit. -/
def take_quiz_insert (st : MainState) (quiz_id : Nat) (user : User)
    (newId now : Nat) : QuizAttempt × MainState :=
  let attempt := newAttempt quiz_id user newId now
  (attempt, { st with attempts := st.attempts ++ [attempt] })

/-- The take_quiz route.  After the guards pass it creates and commits the
new attempt, orders the questions by order_index, and then evaluates
quiz.is_ramdomized — an attribute the Quiz model does not declare (its
column is is_randomized), so the route raises AttributeError after the
commit; the committed attempt survives the failed request.  Had the
attribute existed, a true value would replace the list by
random.sample(questions, len(questions)), modelled by the oracle argument
sample standing for the chosen permutation; nothing about the chosen
order is ever persisted. -/
def take_quiz (st : MainState) (quiz_id : Nat) (user : User) (newId now : Nat)
    (sample : List Question → List Question) : TakeQuizResult × MainState :=
  match take_quiz_check st quiz_id user with
  | .notFound => (.notFound, st)
  | .noCourse => (.pyError (.attributeError "can_be_accessed_by_user"), st)
  | .noAccess cid => (.redirectCourseDetail cid, st)
  | .limitReached => (.redirectQuizDetail quiz_id, st)
  | .passed quiz _course =>
    let r := take_quiz_insert st quiz_id user newId now
    let questions := sortByOrderIndex quiz.questions
    match quiz.getBoolAttr "is_ramdomized" with
    | .error e => (.pyError e, r.2)
    | .ok b => (.page (if b then sample questions else questions) r.1, r.2)

/-- Number of attempt rows for a (quiz, user) pair, across all statuses —
the very count can_user_attempt compares against max_attemtps. -/
def attemptsUsed (attempts : List QuizAttempt) (quiz_id user_id : Nat) : Nat :=
  ((attempts.filter (fun a => a.quiz_id == quiz_id)).filter
    (fun a => a.user_id == user_id)).length

/-- One inbound take_quiz request. -/
structure Req where
  quiz_id : Nat
  user : User
  newId : Nat
  now : Nat
  deriving Repr, DecidableEq

/-- Run a sequence of take_quiz requests, one at a time (the sequential,
non-interleaved execution). -/
def runRequests (st : MainState) : List Req → MainState
  | [] => st
  | r :: rs => runRequests (take_quiz st r.quiz_id r.user r.newId r.now (fun l => l)).2 rs

/-! ### Concrete rows used to evaluate the model -/

/-- An enrolled student. -/
def alice : User := { id := 1 }

/-- The course every fixture quiz belongs to. -/
def courseA : Course := { id := 1, instructor_id := 9, is_published := true }

/-- The active enrollment of the student in the course. -/
def enrollA : Enrollment := { user_id := 1, course_id := 1 }

/-- A one-point multiple-choice question. -/
def qOne : Question :=
  { id := 1, quiz_id := 1, question_type := "multiple_choice", options := none,
    correct_answer := "a", points := 1, order_index := 1 }

/-- A three-point multiple-choice question with canonical answer b. -/
def qThree : Question :=
  { id := 2, quiz_id := 1, question_type := "multiple_choice", options := none,
    correct_answer := "b", points := 3, order_index := 2 }

/-- A question with an unrecognized type. -/
def qEssay : Question :=
  { id := 3, quiz_id := 1, question_type := "essay", options := none,
    correct_answer := "a", points := 1, order_index := 3 }

/-- A completed attempt whose stored answers text is the valid JSON object
with the single entry 2 maps-to b (the correct answer of qThree). -/
def attemptAnswered : QuizAttempt :=
  { id := 10, user_id := 1, quiz_id := 1, status := "completed",
    answers := some "\x7b\"2\": \"b\"\x7d" }

/-- A quiz with zero questions. -/
def quizEmpty : Quiz := { id := 3, course_id := 1, lesson_id := 1, questions := [] }

/-- A completed attempt on the empty quiz with no stored answers text. -/
def attemptEmptyNone : QuizAttempt :=
  { id := 20, user_id := 1, quiz_id := 3, status := "completed" }

/-- A completed attempt on the empty quiz whose stored answers text is the
empty JSON object. -/
def attemptEmptyJson : QuizAttempt :=
  { id := 21, user_id := 1, quiz_id := 3, status := "completed",
    answers := some "\x7b\x7d" }

/-- A question belonging to the randomized quiz. -/
def qR1 : Question :=
  { id := 4, quiz_id := 2, question_type := "true_false", options := none,
    correct_answer := "true", points := 1, order_index := 1 }

/-- A second question belonging to the randomized quiz. -/
def qR2 : Question :=
  { id := 5, quiz_id := 2, question_type := "true_false", options := none,
    correct_answer := "false", points := 1, order_index := 2 }

/-- A published quiz with the randomize flag set. -/
def quizRand : Quiz :=
  { id := 2, course_id := 1, lesson_id := 1, is_published := true,
    is_randomized := true, questions := [qR1, qR2] }

/-- A published quiz with the randomize flag cleared. -/
def quizFixed : Quiz :=
  { id := 6, course_id := 1, lesson_id := 1, is_published := true,
    is_randomized := false, questions := [qR1, qR2] }

/-- State holding both ordering fixtures, with the student enrolled and no
prior attempts. -/
def stOrder : MainState :=
  { quizzes := [quizRand, quizFixed], courses := [courseA],
    enrollments := [enrollA], attempts := [] }

/-- An unpublished quiz. -/
def quizUnpub : Quiz :=
  { id := 4, course_id := 1, lesson_id := 1, is_published := false, questions := [] }

/-- State holding the unpublished quiz, with the student enrolled and no
prior attempts. -/
def stUnpub : MainState :=
  { quizzes := [quizUnpub], courses := [courseA],
    enrollments := [enrollA], attempts := [] }

/-- A published quiz allowing a single attempt. -/
def quizLimit1 : Quiz :=
  { id := 5, course_id := 1, lesson_id := 1, is_published := true,
    max_attemtps := 1 }

/-- State holding the single-attempt quiz, with the student enrolled and
no prior attempts. -/
def stLimit : MainState :=
  { quizzes := [quizLimit1], courses := [courseA],
    enrollments := [enrollA], attempts := [] }

/-- The single-attempt quiz state after the student has used the slot. -/
def stAtLimit : MainState :=
  { stLimit with attempts := [{ id := 30, user_id := 1, quiz_id := 5 }] }

/-- A quiz fixture for the score-statistics claims. -/
def quizStats : Quiz := { id := 7, course_id := 1, lesson_id := 1 }

/-- A completed attempt of the student on the statistics quiz, score 80. -/
def att80 : QuizAttempt :=
  { id := 40, user_id := 1, quiz_id := 7, status := "completed", score := some 80 }

/-- A completed attempt of another user on the statistics quiz, score 60. -/
def attOther60 : QuizAttempt :=
  { id := 41, user_id := 2, quiz_id := 7, status := "completed", score := some 60 }

/-- An in-progress attempt of the student carrying a score value, which no
query may pick up. -/
def attInProgress95 : QuizAttempt :=
  { id := 42, user_id := 1, quiz_id := 7, status := "in_progress", score := some 95 }

/-- A completed attempt fixture used to exercise finalization. -/
def attDone : QuizAttempt :=
  { id := 43, user_id := 1, quiz_id := 1, status := "completed" }

/-- An in-progress attempt fixture used to exercise finalization. -/
def attOpen : QuizAttempt :=
  { id := 44, user_id := 1, quiz_id := 1, status := "in_progress" }

/-- The list of scores that get_average_score averages: the non-None
scores of the completed attempts of the quiz. -/
def completedScores (q : Quiz) (attempts : List QuizAttempt) : List ℚ :=
  ((q.attemptRows attempts).filter (fun a => a.status == "completed")).filterMap
    QuizAttempt.score

/-- The list of scores that get_user_best_score maximizes: the non-None
scores of the given user's completed attempts of the quiz. -/
def userCompletedScores (q : Quiz) (attempts : List QuizAttempt) (u : User) :
    List ℚ :=
  ((attempts.filter (fun a => a.quiz_id == q.id)).filter
    (fun a => a.user_id == u.id && a.status == "completed")).filterMap
    QuizAttempt.score

/-! ### Helper lemmas -/

/-- Looking up is_ramdomized on any Quiz instance raises AttributeError:
no column of that name is declared. -/
lemma getBoolAttr_is_ramdomized (q : Quiz) :
    q.getBoolAttr "is_ramdomized" = .error (.attributeError "is_ramdomized") := rfl

/-- can_user_attempt is the comparison of attemptsUsed with max_attemtps. -/
lemma can_user_attempt_eq (q : Quiz) (attempts : List QuizAttempt) (u : User) :
    q.can_user_attempt attempts u =
      decide ((attemptsUsed attempts q.id u.id : Int) < q.max_attemtps) := rfl

/-- get_average_score written over completedScores. -/
lemma get_average_score_eq (q : Quiz) (attempts : List QuizAttempt) :
    q.get_average_score attempts =
      if (completedScores q attempts).isEmpty then 0
      else (completedScores q attempts).sum / ((completedScores q attempts).length : ℚ) :=
  rfl

/-- get_user_best_score written over userCompletedScores. -/
lemma get_user_best_score_eq (q : Quiz) (attempts : List QuizAttempt) (u : User) :
    q.get_user_best_score attempts u = (userCompletedScores q attempts u).max? := rfl

/-- Membership in the best-score candidate list, unfolded to row data. -/
lemma mem_userCompletedScores (q : Quiz) (attempts : List QuizAttempt) (u : User)
    (x : ℚ) :
    x ∈ userCompletedScores q attempts u ↔
      ∃ a ∈ attempts, a.quiz_id = q.id ∧ a.user_id = u.id ∧ a.status = "completed" ∧
        a.score = some x := by
  simp [userCompletedScores, List.mem_filterMap, List.mem_filter, Bool.and_eq_true,
    beq_iff_eq, and_assoc]
  aesop

/-- Inversion of a passing guard section: the quiz row is the one found
for the requested id and its attempt-limit check returned true. -/
lemma take_quiz_check_passed (st : MainState) (qid : Nat) (u : User) (qz : Quiz)
    (c : Course) (h : take_quiz_check st qid u = .passed qz c) :
    st.quizzes.find? (fun q => q.id == qid) = some qz ∧
    qz.can_user_attempt st.attempts u = true := by
  unfold take_quiz_check at h
  cases hf : st.quizzes.find? (fun q => q.id == qid) with
  | none => simp only [hf] at h; simp at h
  | some qz2 =>
    simp only [hf] at h
    cases hco : st.courses.find? (fun c2 => c2.id == qz2.course_id) with
    | none => simp only [hco] at h; simp at h
    | some course2 =>
      simp only [hco] at h
      by_cases h1 : course2.can_be_accessed_by_user st.enrollments u
      · by_cases h2 : qz2.can_user_attempt st.attempts u
        · simp [h1, h2] at h
          obtain ⟨hqe, hce⟩ := h
          subst hqe
          exact ⟨rfl, h2⟩
        · simp [h1, h2] at h
      · simp [h1] at h

/-- take_quiz never modifies the quizzes table. -/
lemma take_quiz_quizzes (st : MainState) (qid : Nat) (u : User) (i n : Nat)
    (sample : List Question → List Question) :
    ((take_quiz st qid u i n sample).2).quizzes = st.quizzes := by
  unfold take_quiz
  cases h : take_quiz_check st qid u <;>
    simp [take_quiz_insert, getBoolAttr_is_ramdomized]

/-- Appending one attempt row changes the (quiz, user) count by its
indicator. -/
lemma attemptsUsed_append_single (l : List QuizAttempt) (a : QuizAttempt)
    (qid uid : Nat) :
    attemptsUsed (l ++ [a]) qid uid =
      attemptsUsed l qid uid + (if a.quiz_id == qid && a.user_id == uid then 1 else 0) := by
  simp only [attemptsUsed, List.filter_append, List.length_append]
  by_cases h1 : (a.quiz_id == qid) <;> by_cases h2 : (a.user_id == uid) <;>
    simp [List.filter_cons, h1, h2]

/-- One take_quiz request preserves the attempt-count bound for a
(quiz, user) pair: the insert is guarded by can_user_attempt. -/
lemma step_bound (st : MainState) (qid uid : Nat) (quiz : Quiz)
    (hq : st.quizzes.find? (fun q => q.id == qid) = some quiz)
    (hb : (attemptsUsed st.attempts qid uid : Int) ≤ quiz.max_attemtps)
    (rqid : Nat) (ru : User) (ri rn : Nat)
    (sample : List Question → List Question) :
    (attemptsUsed ((take_quiz st rqid ru ri rn sample).2).attempts qid uid : Int) ≤
      quiz.max_attemtps := by
  unfold take_quiz
  cases hch : take_quiz_check st rqid ru with
  | notFound => exact hb
  | noCourse => exact hb
  | noAccess cid => exact hb
  | limitReached => exact hb
  | passed qz c =>
    simp only [take_quiz_insert, getBoolAttr_is_ramdomized]
    rw [attemptsUsed_append_single]
    by_cases hind : ((newAttempt rqid ru ri rn).quiz_id == qid &&
        (newAttempt rqid ru ri rn).user_id == uid)
    · rw [if_pos hind]
      simp only [newAttempt, Bool.and_eq_true, beq_iff_eq] at hind
      obtain ⟨hq1, hu1⟩ := hind
      subst hq1
      obtain ⟨hfq, hcan⟩ := take_quiz_check_passed st rqid ru qz c hch
      rw [hq] at hfq
      injection hfq with hqe
      subst hqe
      have hid : quiz.id = rqid := by
        have := List.find?_some hq
        simpa using this
      rw [can_user_attempt_eq] at hcan
      rw [hid, hu1] at hcan
      have hlt : (attemptsUsed st.attempts rqid uid : Int) < quiz.max_attemtps :=
        of_decide_eq_true hcan
      push_cast
      omega
    · rw [if_neg hind]
      simpa using hb

/-- Any sequence of take_quiz requests preserves the attempt-count bound
for a (quiz, user) pair. -/
lemma runRequests_bound (qid uid : Nat) (quiz : Quiz) :
    ∀ (reqs : List Req) (st : MainState),
      st.quizzes.find? (fun q => q.id == qid) = some quiz →
      (attemptsUsed st.attempts qid uid : Int) ≤ quiz.max_attemtps →
      (attemptsUsed (runRequests st reqs).attempts qid uid : Int) ≤ quiz.max_attemtps
  | [], _, _, hb => hb
  | r :: rs, st, hq, hb => by
    have hq2 : ((take_quiz st r.quiz_id r.user r.newId r.now (fun l => l)).2).quizzes.find?
        (fun q => q.id == qid) = some quiz := by
      rw [take_quiz_quizzes]; exact hq
    exact runRequests_bound qid uid quiz rs _ hq2
      (step_bound st qid uid quiz hq hb r.quiz_id r.user r.newId r.now (fun l => l))

/-! ### Claims -/

/-- C1: the scenario the claim gives — a quiz with questions worth 1 and 3
points, only the 3-point question answered correctly — does not yield
earned=3, total=4, percentage=75: the stored answers text is valid JSON
(first conjunct) and the submitted answer is correct (second conjunct),
yet calculate_score raises AttributeError, because get_answers_dict reads
the undeclared attribute answer instead of the answers column. -/
theorem c1_calculate_score_raises_on_answered_attempt :
    json_loads "\x7b\"2\": \"b\"\x7d" = .ok [("2", "b")] ∧
    qThree.check_answer "b" = true ∧
    QuizAttempt.calculate_score [qOne, qThree] attemptAnswered =
      .error (.attributeError "answer") :=
  ⟨rfl, rfl, rfl⟩

/-- C3: reading the question order for a fresh attempt never succeeds —
for the randomized quiz and for the non-randomized quiz alike, take_quiz
commits the new attempt and then raises AttributeError on the undeclared
attribute is_ramdomized (the column is is_randomized), so no question
order is ever issued, let alone a permutation fixed and replayed. -/
theorem c3_take_quiz_raises_is_ramdomized :
    quizRand.is_randomized = true ∧
    quizFixed.is_randomized = false ∧
    take_quiz stOrder 2 alice 11 5 (fun l => l.reverse) =
      (.pyError (.attributeError "is_ramdomized"),
       { stOrder with attempts := [newAttempt 2 alice 11 5] }) ∧
    take_quiz stOrder 6 alice 12 6 (fun l => l.reverse) =
      (.pyError (.attributeError "is_ramdomized"),
       { stOrder with attempts := [newAttempt 6 alice 12 6] }) :=
  ⟨rfl, rfl, rfl, rfl⟩

/-- C4: get_answers_dict returns the empty map when the stored answers
text is absent or empty, but raises AttributeError — instead of returning
the parsed map or degrading to the empty map — as soon as the text is
non-empty, be it valid JSON or not, because it reads the undeclared
attribute answer. -/
theorem c4_get_answers_dict_raises_on_nonempty_text :
    QuizAttempt.get_answers_dict { attemptAnswered with answers := none } = .ok [] ∧
    QuizAttempt.get_answers_dict { attemptAnswered with answers := some "" } = .ok [] ∧
    QuizAttempt.get_answers_dict attemptAnswered = .error (.attributeError "answer") ∧
    QuizAttempt.get_answers_dict { attemptAnswered with answers := some "not json" } =
      .error (.attributeError "answer") :=
  ⟨rfl, rfl, rfl, rfl⟩

/-- C7: the empty quiz has total points 0, and finalizing a completed
attempt with no stored answers text stores earned=0, total=0, score=0
through the total-greater-than-zero guard (no division occurs); but a
completed attempt whose stored text is the empty JSON object crashes with
AttributeError instead of storing the zero result. -/
theorem c7_zero_question_scoring :
    quizEmpty.get_total_points = 0 ∧
    QuizAttempt.calculate_score quizEmpty.questions attemptEmptyNone =
      .ok { attemptEmptyNone with
            total_points := some 0, earned_points := some 0, score := some 0 } ∧
    QuizAttempt.calculate_score quizEmpty.questions attemptEmptyJson =
      .error (.attributeError "answer") :=
  ⟨rfl, rfl, rfl⟩

/-- C5 counterexample: the take_quiz route never consults is_published —
a start-attempt request for an unpublished quiz by an enrolled student
does not fail, and the attempt ledger grows by one row. -/
theorem c5_counterexample_unpublished_quiz_attempt_created :
    quizUnpub.is_published = false ∧
    (take_quiz stUnpub 4 alice 7 3 (fun l => l)).2.attempts =
      [newAttempt 4 alice 7 3] :=
  ⟨rfl, rfl⟩

/-- C2 counterexample: the attempt-limit guard and the insert are separate
steps with no serialization between them, so two concurrent requests that
both run the guard against the same pre-state — max_attemtps = 1, no
attempts yet, so both pass — and then both commit leave two attempt rows
for the (user, quiz) pair, exceeding the limit of one. -/
theorem c2_counterexample_concurrent_check_then_insert :
    quizLimit1.max_attemtps = 1 ∧
    take_quiz_check stLimit 5 alice = .passed quizLimit1 courseA ∧
    attemptsUsed
      ((take_quiz_insert (take_quiz_insert stLimit 5 alice 31 1).2 5 alice 32 2).2).attempts
      5 1 = 2 :=
  ⟨rfl, rfl, rfl⟩

/-- C2 (amended, sequential part): for a quiz row found under the
requested id, if the (quiz, user) attempt count is at most max_attemtps
then it stays so after any sequence of take_quiz requests; and a request
by a user already at the limit who passes the access check is answered
with the attempt-limit redirect and leaves the state unchanged — so
sequentially the (N+1)th start after N successful ones always fails and
creates no attempt. -/
theorem c2_attempt_limit_sequential (st : MainState) (qid uid : Nat) (quiz : Quiz)
    (reqs : List Req)
    (hq : st.quizzes.find? (fun q => q.id == qid) = some quiz)
    (hstart : (attemptsUsed st.attempts qid uid : Int) ≤ quiz.max_attemtps) :
    (attemptsUsed (runRequests st reqs).attempts qid uid : Int) ≤ quiz.max_attemtps ∧
    (∀ (u : User) (i n : Nat) (sample : List Question → List Question) (course : Course),
      u.id = uid →
      st.courses.find? (fun c => c.id == quiz.course_id) = some course →
      course.can_be_accessed_by_user st.enrollments u = true →
      quiz.max_attemtps ≤ (attemptsUsed st.attempts qid uid : Int) →
      take_quiz st qid u i n sample = (.redirectQuizDetail qid, st)) := by
  refine ⟨runRequests_bound qid uid quiz reqs st hq hstart, ?_⟩
  intro u i n sample course hu hc hacc hfull
  have hid : quiz.id = qid := by
    have := List.find?_some hq
    simpa using this
  have hcan : quiz.can_user_attempt st.attempts u = false := by
    rw [can_user_attempt_eq, hid, hu]
    simp only [decide_eq_false_iff_not, not_lt]
    exact hfull
  simp [take_quiz, take_quiz_check, hq, hc, hacc, hcan]

/-- C2 witness: on the single-attempt quiz, three requests from the empty
ledger leave at most one row, and a request in the at-limit state is
rejected with the limit redirect and changes nothing. -/
theorem c2_attempt_limit_sequential_witness :
    (attemptsUsed
        (runRequests stLimit [⟨5, alice, 31, 1⟩, ⟨5, alice, 32, 2⟩, ⟨5, alice, 33, 3⟩]).attempts
        5 1 : Int) ≤ quizLimit1.max_attemtps ∧
    take_quiz stAtLimit 5 alice 9 9 (fun l => l) =
      (.redirectQuizDetail 5, stAtLimit) :=
  ⟨(c2_attempt_limit_sequential stLimit 5 1 quizLimit1
      [⟨5, alice, 31, 1⟩, ⟨5, alice, 32, 2⟩, ⟨5, alice, 33, 3⟩] rfl (by decide)).1,
   (c2_attempt_limit_sequential stAtLimit 5 1 quizLimit1 [] rfl (by decide)).2
      alice 9 9 (fun l => l) courseA rfl rfl (by decide) (by decide)⟩

/-- C5 (amended): take_quiz creates the new attempt row exactly when the
acting user passes the course access check and can_user_attempt holds,
and otherwise leaves the state unchanged; the published flag of the quiz
is not consulted anywhere (the theorem holds for every quiz row,
published or not, and no QuizNotPublished outcome exists). -/
theorem c5_start_attempt_preconditions (st : MainState) (qid : Nat) (u : User)
    (i n : Nat) (sample : List Question → List Question) (quiz : Quiz)
    (course : Course)
    (hq : st.quizzes.find? (fun q => q.id == qid) = some quiz)
    (hc : st.courses.find? (fun c => c.id == quiz.course_id) = some course) :
    (course.can_be_accessed_by_user st.enrollments u = true →
      quiz.can_user_attempt st.attempts u = true →
      (take_quiz st qid u i n sample).2 =
        { st with attempts := st.attempts ++ [newAttempt qid u i n] }) ∧
    (course.can_be_accessed_by_user st.enrollments u = false ∨
      quiz.can_user_attempt st.attempts u = false →
      (take_quiz st qid u i n sample).2 = st) := by
  constructor
  · intro h1 h2
    simp [take_quiz, take_quiz_check, hq, hc, h1, h2, take_quiz_insert,
      getBoolAttr_is_ramdomized]
  · rintro (h1 | h1)
    · simp [take_quiz, take_quiz_check, hq, hc, h1]
    · by_cases h2 : course.can_be_accessed_by_user st.enrollments u
      · simp [take_quiz, take_quiz_check, hq, hc, h1, h2]
      · simp only [Bool.not_eq_true] at h2
        simp [take_quiz, take_quiz_check, hq, hc, h2]

/-- C5 witness: the amended rule applied to the unpublished quiz — the
enrolled student passes both remaining checks and the attempt is
created even though is_published is false. -/
theorem c5_start_attempt_preconditions_witness :
    quizUnpub.is_published = false ∧
    courseA.can_be_accessed_by_user stUnpub.enrollments alice = true ∧
    quizUnpub.can_user_attempt stUnpub.attempts alice = true ∧
    (take_quiz stUnpub 4 alice 7 3 (fun l => l)).2 =
      { stUnpub with attempts := stUnpub.attempts ++ [newAttempt 4 alice 7 3] } :=
  ⟨rfl, rfl, rfl,
   (c5_start_attempt_preconditions stUnpub 4 alice 7 3 (fun l => l) quizUnpub courseA
      rfl rfl).1 rfl rfl⟩

/-- C6: for each of the three recognized question types, check_answer is
the equality of the strip-and-lowercase normalizations of the submitted
and the canonical answer — one and the same comparison for all three —
and for any other question type it is false (and, being a total
function, never throws). -/
theorem c6_check_answer_uniform_normalized_comparison (q : Question) (ans : String) :
    ((q.question_type = "multiple_choice" ∨ q.question_type = "true_false" ∨
      q.question_type = "short_answer") →
      q.check_answer ans = (pyNorm ans == pyNorm q.correct_answer)) ∧
    (q.question_type ≠ "multiple_choice" → q.question_type ≠ "true_false" →
      q.question_type ≠ "short_answer" → q.check_answer ans = false) := by
  constructor
  · rintro (h | h | h) <;> simp [Question.check_answer, h]
  · intro h1 h2 h3
    simp [Question.check_answer, h1, h2, h3]

/-- C6 witness: the rule applied to a multiple-choice question with a
whitespace-and-case-mangled submission, and to an unrecognized type. -/
theorem c6_check_answer_witness :
    qOne.question_type = "multiple_choice" ∧
    qOne.check_answer " A " = (pyNorm " A " == pyNorm qOne.correct_answer) ∧
    qEssay.question_type ≠ "multiple_choice" ∧
    qEssay.check_answer "a" = false :=
  ⟨rfl, (c6_check_answer_uniform_normalized_comparison qOne " A ").1 (Or.inl rfl),
   by decide,
   (c6_check_answer_uniform_normalized_comparison qEssay "a").2
     (by decide) (by decide) (by decide)⟩

/-- C8: calculate_score on a non-completed attempt changes nothing, so
the score fields stay absent — and a freshly issued attempt starts
in_progress with all three fields absent; on a completed attempt a
second calculate_score returns exactly what the first returned, a second
application changes the row no further, and neither completed_at nor the
stored answers are ever touched. -/
theorem c8_finalize_idempotent (questions : List Question) (a : QuizAttempt) :
    (a.status ≠ "completed" → a.calculate_score questions = .ok a) ∧
    (a.status = "completed" →
      QuizAttempt.calculate_score questions (calcStep questions a) =
        a.calculate_score questions ∧
      calcStep questions (calcStep questions a) = calcStep questions a ∧
      (calcStep questions a).completed_at = a.completed_at ∧
      (calcStep questions a).answers = a.answers) ∧
    (∀ (qid2 : Nat) (u : User) (i2 n2 : Nat),
      (newAttempt qid2 u i2 n2).status = "in_progress" ∧
      (newAttempt qid2 u i2 n2).total_points = none ∧
      (newAttempt qid2 u i2 n2).earned_points = none ∧
      (newAttempt qid2 u i2 n2).score = none) := by
  have hfix : ∀ b : QuizAttempt, QuizAttempt.calculate_score questions b = .ok b →
      calcStep questions b = b := by
    intro b hb
    simp [calcStep, hb]
  refine ⟨?_, ?_, fun _ _ _ _ => ⟨rfl, rfl, rfl, rfl⟩⟩
  · intro h
    simp [QuizAttempt.calculate_score, h]
  · intro h
    cases hd : a.get_answers_dict with
    | error e =>
      have hcs : a.calculate_score questions = .error e := by
        simp [QuizAttempt.calculate_score, h, hd]
      simp [calcStep, hcs]
    | ok d =>
      have hcs : a.calculate_score questions =
          .ok { a with
                total_points := some (scoreFold d questions).1,
                earned_points := some (scoreFold d questions).2,
                score := some (if 0 < (scoreFold d questions).1 then
                  ((scoreFold d questions).2 : ℚ) / ((scoreFold d questions).1 : ℚ) * 100
                  else 0) } := by
        simp [QuizAttempt.calculate_score, h, hd]
      have hstep : calcStep questions a =
          { a with
            total_points := some (scoreFold d questions).1,
            earned_points := some (scoreFold d questions).2,
            score := some (if 0 < (scoreFold d questions).1 then
              ((scoreFold d questions).2 : ℚ) / ((scoreFold d questions).1 : ℚ) * 100
              else 0) } := by
        simp [calcStep, hcs]
      have hst : (calcStep questions a).status = "completed" := by rw [hstep]; exact h
      have hd2 : (calcStep questions a).get_answers_dict = .ok d := by
        rw [hstep]
        show a.get_answers_dict = .ok d
        exact hd
      have hcs2 : QuizAttempt.calculate_score questions (calcStep questions a) =
          a.calculate_score questions := by
        rw [hcs]
        simp only [QuizAttempt.calculate_score, hst, hd2]
        rw [hstep]
        simp [h]
      refine ⟨hcs2, ?_, ?_, ?_⟩
      · exact hfix (calcStep questions a) (by rw [hcs2, hcs, hstep])
      · rw [hstep]
      · rw [hstep]

/-- C8 witness: an in-progress attempt is left untouched, and on a
completed attempt the second finalization step is the first. -/
theorem c8_finalize_idempotent_witness :
    attOpen.status ≠ "completed" ∧
    QuizAttempt.calculate_score [qOne] attOpen = .ok attOpen ∧
    attDone.status = "completed" ∧
    calcStep [qOne] (calcStep [qOne] attDone) = calcStep [qOne] attDone :=
  ⟨by decide, (c8_finalize_idempotent [qOne] attOpen).1 (by decide), rfl,
   ((c8_finalize_idempotent [qOne] attDone).2.1 rfl).2.1⟩

/-- C9: get_user_best_score is absent exactly when the user has no
completed attempt on the quiz carrying a score; when it is some s, some
completed attempt of the user carries exactly s and every score carried
by the user's completed attempts is at most s; and prepending an attempt
of another user, or one not completed, never changes the result. -/
theorem c9_best_score_characterization (q : Quiz) (attempts : List QuizAttempt)
    (u : User) :
    (q.get_user_best_score attempts u = none ↔
      ∀ a ∈ attempts, a.quiz_id = q.id → a.user_id = u.id → a.status = "completed" →
        a.score = none) ∧
    (∀ s : ℚ, q.get_user_best_score attempts u = some s →
      (∃ a ∈ attempts, a.quiz_id = q.id ∧ a.user_id = u.id ∧ a.status = "completed" ∧
        a.score = some s) ∧
      (∀ a ∈ attempts, a.quiz_id = q.id → a.user_id = u.id → a.status = "completed" →
        ∀ x : ℚ, a.score = some x → x ≤ s)) ∧
    (∀ b : QuizAttempt, b.user_id ≠ u.id ∨ b.status ≠ "completed" →
      q.get_user_best_score (b :: attempts) u = q.get_user_best_score attempts u) := by
  haveI hanti : Std.Antisymm ((· : ℚ) ≤ ·) := ⟨fun h1 h2 => le_antisymm h1 h2⟩
  have hiff : ∀ s : ℚ, (userCompletedScores q attempts u).max? = some s ↔
      s ∈ userCompletedScores q attempts u ∧
      ∀ b ∈ userCompletedScores q attempts u, b ≤ s := fun s =>
    List.max?_eq_some_iff (fun a => le_refl a) (fun a b => max_choice a b)
      (fun a b c => max_le_iff)
  refine ⟨?_, ?_, ?_⟩
  · rw [get_user_best_score_eq, List.max?_eq_none_iff]
    constructor
    · intro h a ha h1 h2 h3
      cases hs : a.score with
      | none => rfl
      | some x =>
        have : x ∈ userCompletedScores q attempts u :=
          (mem_userCompletedScores q attempts u x).mpr ⟨a, ha, h1, h2, h3, hs⟩
        rw [h] at this
        cases this
    · intro h
      by_contra hne
      obtain ⟨x, hx⟩ := List.exists_mem_of_ne_nil _ hne
      obtain ⟨a, ha, h1, h2, h3, h4⟩ := (mem_userCompletedScores q attempts u x).mp hx
      have := h a ha h1 h2 h3
      rw [this] at h4
      cases h4
  · intro s hs
    rw [get_user_best_score_eq] at hs
    obtain ⟨hmem, hub⟩ := (hiff s).mp hs
    refine ⟨(mem_userCompletedScores q attempts u s).mp hmem, ?_⟩
    intro a ha h1 h2 h3 x hx
    exact hub x ((mem_userCompletedScores q attempts u x).mpr ⟨a, ha, h1, h2, h3, hx⟩)
  · intro b hb
    rw [get_user_best_score_eq, get_user_best_score_eq]
    have hS : userCompletedScores q (b :: attempts) u = userCompletedScores q attempts u := by
      unfold userCompletedScores
      by_cases hq1 : (b.quiz_id == q.id)
      · have hcond : (b.user_id == u.id && b.status == "completed") = false := by
          rcases hb with h | h <;> simp [h]
        simp [List.filter_cons, hq1, hcond]
      · simp [List.filter_cons, hq1]
    rw [hS]

/-- C9 witness: an in-progress attempt of the same user, even one
carrying a higher score value, does not change the best score, which is
the 80 of the single completed attempt of the user (the other user's
completed 60 is ignored). -/
theorem c9_best_score_witness :
    attInProgress95.status ≠ "completed" ∧
    quizStats.get_user_best_score (attInProgress95 :: [att80, attOther60]) alice =
      quizStats.get_user_best_score [att80, attOther60] alice ∧
    quizStats.get_user_best_score [att80, attOther60] alice = some 80 :=
  ⟨by decide,
   (c9_best_score_characterization quizStats [att80, attOther60] alice).2.2
     attInProgress95 (Or.inr (by decide)),
   rfl⟩

/-- C10: get_average_score is total — it returns 0 when no completed
attempt of the quiz carries a score, and otherwise the arithmetic mean
of the carried scores, dividing by the list length, which is then
provably nonzero. -/
theorem c10_average_score_total (q : Quiz) (attempts : List QuizAttempt) :
    (completedScores q attempts = [] → q.get_average_score attempts = 0) ∧
    (completedScores q attempts ≠ [] →
      ((completedScores q attempts).length : ℚ) ≠ 0 ∧
      q.get_average_score attempts =
        (completedScores q attempts).sum / ((completedScores q attempts).length : ℚ)) := by
  constructor
  · intro h
    rw [get_average_score_eq]
    simp [h]
  · intro h
    have hlen : (completedScores q attempts).length ≠ 0 := by
      simpa [List.length_eq_zero] using h
    refine ⟨by exact_mod_cast Nat.cast_ne_zero.mpr hlen, ?_⟩
    rw [get_average_score_eq]
    simp [h]

/-- C10 witness: two completed attempts with scores 80 and 60 (and one
in-progress attempt that is ignored) average to 70; an attempts table
with no completed scored attempt averages to 0. -/
theorem c10_average_score_witness :
    quizStats.get_average_score [att80, attOther60, attInProgress95] = 70 ∧
    quizStats.get_average_score [attInProgress95] = 0 := by
  constructor
  · have h := (c10_average_score_total quizStats [att80, attOther60, attInProgress95]).2
      (by decide)
    rw [h.2]
    rw [show completedScores quizStats [att80, attOther60, attInProgress95] =
      [(80 : ℚ), 60] from rfl]
    norm_num
  · have h := (c10_average_score_total quizStats [attInProgress95]).1 (by decide)
    exact h

end CourseApp
